import Mathlib

/-!
# Harvester machine driver: option catalog, populator, validator, base64-optional decoder

A shallow embedding of `harvester/flags.go` and theorems about it.

* Go `string` and `[]byte` are byte sequences: `GoString = List UInt8`.
* Go `error` is `Option GoString`: `none` is `nil`, `some msg` an error with that message.
* Go `int` is `Int`; no arithmetic is done on it in this file of the driver.
-/

namespace Harvester

/-! ## Go values -/

/-- A Go string (equally a `[]byte`): a finite sequence of bytes. -/
abbrev GoString := List UInt8

/-- The bytes (UTF-8) of a string literal of the source. -/
def goStr (s : String) : GoString := s.data.flatMap String.utf8EncodeChar

/-- A Go `error`: `none` is `nil`, `some msg` is an error whose message is `msg`. -/
abbrev GoError := Option GoString

/-- The constructor `errors.New(msg)`. -/
def errorsNew (msg : GoString) : GoError := some msg

/-- The verb `%d` of `fmt`: the decimal rendering of an integer, with a leading `-` when negative. -/
def formatInt : Int → GoString
  | Int.ofNat m => goStr (Nat.repr m)
  | Int.negSucc m => goStr "-" ++ goStr (Nat.repr (m + 1))

/-! ## Constants of `flags.go` (lines 12-22) -/

def defaultNamespace : GoString := goStr "default"

def defaultCPU : Int := 2

def defaultMemorySize : Int := 4

def defaultDiskSize : Int := 40

def defaultDiskBus : GoString := goStr "virtio"

def defaultNetworkModel : GoString := goStr "virtio"

def networkTypePod : GoString := goStr "pod"

def networkTypeDHCP : GoString := goStr "dhcp"

/-! ## The option catalog -/

/-- The two kinds of `mcnflag.Flag` the driver declares (`mcnflag.StringFlag`, `mcnflag.IntFlag`);
a field left out of a Go composite literal holds the zero value (`""`, `0`). -/
inductive Flag where
  | StringFlag (EnvVar Name Usage Value : GoString)
  | IntFlag (EnvVar Name Usage : GoString) (Value : Int)
  deriving DecidableEq, Repr

/-- The method `GetCreateFlags` (lines 24-141). The two constants `drivers.DefaultSSHUser` and
`drivers.DefaultSSHPort` belong to the host framework and are parameters here. -/
def GetCreateFlags (DefaultSSHUser : GoString) (DefaultSSHPort : Int) : List Flag :=
  [ Flag.StringFlag (goStr "HARVESTER_KUBECONFIG_CONTENT") (goStr "harvester-kubeconfig-content")
      (goStr "contents of kubeconfig file for harvester cluster, base64 is supported") [],
    Flag.StringFlag (goStr "HARVESTER_CLUSTER_TYPE") (goStr "harvester-cluster-type")
      (goStr "harvester cluster type") [],
    Flag.StringFlag (goStr "HARVESTER_CLUSTER_ID") (goStr "harvester-cluster-id")
      (goStr "harvester cluster id") [],
    Flag.StringFlag (goStr "HARVESTER_VM_NAMESPACE") (goStr "harvester-vm-namespace")
      (goStr "harvester vm namespace") defaultNamespace,
    Flag.IntFlag (goStr "HARVESTER_CPU_COUNT") (goStr "harvester-cpu-count")
      (goStr "number of CPUs for machine") defaultCPU,
    Flag.IntFlag (goStr "HARVESTER_MEMORY_SIZE") (goStr "harvester-memory-size")
      (goStr "size of memory for machine (in GiB)") defaultMemorySize,
    Flag.IntFlag (goStr "HARVESTER_DISK_SIZE") (goStr "harvester-disk-size")
      (goStr "size of disk for machine (in GiB)") defaultDiskSize,
    Flag.StringFlag (goStr "HARVESTER_DISK_BUS") (goStr "harvester-disk-bus")
      (goStr "bus of disk for machine") defaultDiskBus,
    Flag.StringFlag (goStr "HARVESTER_IMAGE_NAME") (goStr "harvester-image-name")
      (goStr "harvester image name") [],
    Flag.StringFlag (goStr "HARVESTER_SSH_USER") (goStr "harvester-ssh-user")
      (goStr "SSH username") DefaultSSHUser,
    Flag.IntFlag (goStr "HARVESTER_SSH_PORT") (goStr "harvester-ssh-port")
      (goStr "SSH port") DefaultSSHPort,
    Flag.StringFlag (goStr "HARVESTER_SSH_PASSWORD") (goStr "harvester-ssh-password")
      (goStr "SSH password") [],
    Flag.StringFlag (goStr "HARVESTER_KEY_PAIR_NAME") (goStr "harvester-key-pair-name")
      (goStr "harvester key pair name") [],
    Flag.StringFlag (goStr "HARVESTER_SSH_PRIVATE_KEY_PATH") (goStr "harvester-ssh-private-key-path")
      (goStr "SSH private key path ") [],
    Flag.StringFlag (goStr "HARVESTER_NETWORK_TYPE") (goStr "harvester-network-type")
      (goStr "harvester network type") networkTypeDHCP,
    Flag.StringFlag (goStr "HARVESTER_NETWORK_NAME") (goStr "harvester-network-name")
      (goStr "harvester network name") [],
    Flag.StringFlag (goStr "HARVESTER_NETWORK_MODEL") (goStr "harvester-network-model")
      (goStr "harvester network model") defaultNetworkModel,
    Flag.StringFlag (goStr "HARVESTER_CLOUD_CONFIG") (goStr "harvester-cloud-config")
      (goStr "just keep it empty, this value will be filled by rancher-machine") [],
    Flag.StringFlag (goStr "HARVESTER_USER_DATA") (goStr "harvester-user-data")
      (goStr "userData content of cloud-init for machine, base64 is supported") [],
    Flag.StringFlag (goStr "HARVESTER_NETWORK_DATA") (goStr "harvester-network-data")
      (goStr "networkData content of cloud-init for machine, base64 is supported") [],
    Flag.StringFlag (goStr "HARVESTER_VM_AFFINITY") (goStr "harvester-vm-affinity")
      (goStr "harvester vm affinity, base64 is supported") [] ]

/-! ## `encoding/base64`, `StdEncoding`

The decoder of the Go standard library, as `StringSupportBase64` calls it: the RFC 4648
alphabet, `=` padding, non-strict mode, and `\r` and `\n` skipped wherever they stand. -/

/-- The alphabet of `base64.StdEncoding`. -/
def encodeStd : GoString :=
  goStr "ABCDEFGHIJKLMNOPQRSTUVWXYZabcdefghijklmnopqrstuvwxyz0123456789+/"

/-- The padding character of `base64.StdEncoding`, `=`. -/
def StdPadding : UInt8 := 61

/-- The table `enc.encode`: the character of a 6-bit value. -/
def encode (i : Nat) : UInt8 := encodeStd.getD i 0

/-- The table `enc.decodeMap` built by `NewEncoding`: `0xff` everywhere, except that the
`i`-th character of the alphabet maps to `i`. -/
def decodeMap (c : UInt8) : UInt8 :=
  if encodeStd.indexOf c < 64 then UInt8.ofNat (encodeStd.indexOf c) else 0xff

/-- The end of `decodeQuantum`: the four 6-bit values are packed into a 24-bit word,
`val := dbuf[0]<<18 | dbuf[1]<<12 | dbuf[2]<<6 | dbuf[3]`, whose three bytes are
`byte(val>>16), byte(val>>8), byte(val>>0)`. -/
def quantumBytes (d0 d1 d2 d3 : UInt8) : List UInt8 :=
  let val := d0.toNat <<< 18 ||| d1.toNat <<< 12 ||| d2.toNat <<< 6 ||| d3.toNat
  [UInt8.ofNat (val >>> 16), UInt8.ofNat (val >>> 8), UInt8.ofNat val]

/-- The loop `for si < len(src) && (src[si] == '\n' || src[si] == '\r') { si++ }`. -/
def skipNewlines : List UInt8 → List UInt8
  | [] => []
  | c :: cs => if c = 10 ∨ c = 13 then skipNewlines cs else c :: cs

/-- The loops of `Encoding.Decode` and `decodeQuantum` as one pass over the input that is left.
`dbuf` holds the 6-bit values read so far in the current quantum (its length is the `j` of
`decodeQuantum`); when the fourth value arrives the quantum yields three bytes and the next one
starts with `j = 0`. The result is `none` when `Decode` returns a `CorruptInputError`
(whose offset, and the bytes decoded before it, the driver never looks at), and `some dst[:n]`
when it returns `nil`. The 8- and 4-character fast paths of `Decode` yield the same bytes as
the quantum loop and are not modelled apart. -/
def decodeFrom (dbuf : List UInt8) : List UInt8 → Option (List UInt8)
  | [] => if dbuf.length = 0 then some [] else none
  | c :: rest =>
    if decodeMap c ≠ 0xff then
      match dbuf with
      | [d0, d1, d2] => (decodeFrom [] rest).map (fun tl => quantumBytes d0 d1 d2 (decodeMap c) ++ tl)
      | _ => decodeFrom (dbuf ++ [decodeMap c]) rest
    else if c = 10 ∨ c = 13 then decodeFrom dbuf rest
    else if c ≠ StdPadding then none
    else
      match dbuf with
      | [d0, d1] =>
        match skipNewlines rest with
        | [] => none
        | p :: rest2 =>
          if p ≠ StdPadding then none
          else if skipNewlines rest2 ≠ [] then none
          else some ((quantumBytes d0 d1 0 0).take 1)
      | [d0, d1, d2] =>
        if skipNewlines rest ≠ [] then none
        else some ((quantumBytes d0 d1 d2 0).take 2)
      | _ => none

/-- The function `base64.StdEncoding.DecodeString`: `some bytes` when `err == nil`, `none` otherwise. -/
def DecodeString (s : GoString) : Option (List UInt8) := decodeFrom [] s

/-- The function `base64.StdEncoding.EncodeToString`: the standard padded base64 encoding (RFC 4648) of a
byte string, three bytes to four characters, the last group padded with `=`. -/
def EncodeToString : List UInt8 → GoString
  | [] => []
  | [a] =>
    let val := a.toNat <<< 16
    [encode (val >>> 18 &&& 0x3F), encode (val >>> 12 &&& 0x3F), StdPadding, StdPadding]
  | [a, b] =>
    let val := a.toNat <<< 16 ||| b.toNat <<< 8
    [encode (val >>> 18 &&& 0x3F), encode (val >>> 12 &&& 0x3F), encode (val >>> 6 &&& 0x3F),
      StdPadding]
  | a :: b :: c :: rest =>
    let val := a.toNat <<< 16 ||| b.toNat <<< 8 ||| c.toNat
    [encode (val >>> 18 &&& 0x3F), encode (val >>> 12 &&& 0x3F), encode (val >>> 6 &&& 0x3F),
      encode (val &&& 0x3F)] ++ EncodeToString rest

/-- The function `StringSupportBase64` (lines 198-207). -/
def StringSupportBase64 (value : GoString) : GoString :=
  if value = [] then value
  else
    match DecodeString value with
    | some valueByte => valueByte
    | none => value

/-! ## The configuration record and the option lookup -/

/-- A Go `bool`. -/
abbrev GoBool := Bool

/-- The interface `drivers.DriverOptions` of the host framework: getters by option name. -/
structure DriverOptions where
  String : GoString → GoString
  Int : GoString → ℤ
  Bool : GoString → GoBool

/-- Modelled from the spec: the declaration of the struct `Driver` is not in `flags.go`; the
fields are those of the Configuration Record of the data model (section 3), in its order,
followed by the three swarm fields of the embedded `drivers.BaseDriver`, which
`SetSwarmConfigFromFlags` fills. -/
structure Driver where
  KubeConfigContent : GoString
  VMNamespace : GoString
  VMAffinity : GoString
  ClusterType : GoString
  ClusterID : GoString
  CPU : ℤ
  MemorySize : GoString
  DiskSize : GoString
  DiskBus : GoString
  ImageName : GoString
  SSHUser : GoString
  SSHPort : ℤ
  KeyPairName : GoString
  SSHPrivateKeyPath : GoString
  SSHPassword : GoString
  NetworkType : GoString
  NetworkName : GoString
  NetworkModel : GoString
  CloudConfig : GoString
  UserData : GoString
  NetworkData : GoString
  SwarmMaster : GoBool
  SwarmHost : GoString
  SwarmDiscovery : GoString
  deriving DecidableEq, Repr

/-- The method `BaseDriver.SetSwarmConfigFromFlags` of the host framework, called on line 174: it writes
the three swarm fields and no other. -/
def SetSwarmConfigFromFlags (d : Driver) (flags : DriverOptions) : Driver :=
  { d with
    SwarmMaster := flags.Bool (goStr "swarm-master")
    SwarmHost := flags.String (goStr "swarm-host")
    SwarmDiscovery := flags.String (goStr "swarm-discovery") }

/-- The method `checkConfig` (lines 179-196). -/
def checkConfig (d : Driver) : GoError :=
  if d.ImageName = [] then
    errorsNew (goStr "must specify harvester image name")
  else if d.KeyPairName ≠ [] ∧ d.SSHPrivateKeyPath = [] then
    errorsNew (goStr "must specify the ssh private key path of the harvester key pair")
  else if d.NetworkType = networkTypePod then
    none
  else if d.NetworkType = networkTypeDHCP then
    if d.NetworkName = [] then
      errorsNew (goStr "must specify harvester network name")
    else
      none
  else
    some (goStr "unknown network type " ++ d.NetworkType)

/-- The assignments of `SetConfigFromFlags` (lines 144-174): the record after them. Every
right-hand side reads the lookup only, so the assignments are written as one update. -/
def populate (d : Driver) (flags : DriverOptions) : Driver :=
  SetSwarmConfigFromFlags
    { d with
      KubeConfigContent := StringSupportBase64 (flags.String (goStr "harvester-kubeconfig-content"))
      VMNamespace := flags.String (goStr "harvester-vm-namespace")
      VMAffinity := StringSupportBase64 (flags.String (goStr "harvester-vm-affinity"))
      ClusterType := flags.String (goStr "harvester-cluster-type")
      ClusterID := flags.String (goStr "harvester-cluster-id")
      CPU := flags.Int (goStr "harvester-cpu-count")
      MemorySize := formatInt (flags.Int (goStr "harvester-memory-size")) ++ goStr "Gi"
      DiskSize := formatInt (flags.Int (goStr "harvester-disk-size")) ++ goStr "Gi"
      DiskBus := flags.String (goStr "harvester-disk-bus")
      ImageName := flags.String (goStr "harvester-image-name")
      SSHUser := flags.String (goStr "harvester-ssh-user")
      SSHPort := flags.Int (goStr "harvester-ssh-port")
      KeyPairName := flags.String (goStr "harvester-key-pair-name")
      SSHPrivateKeyPath := flags.String (goStr "harvester-ssh-private-key-path")
      SSHPassword := flags.String (goStr "harvester-ssh-password")
      NetworkType := flags.String (goStr "harvester-network-type")
      NetworkName := flags.String (goStr "harvester-network-name")
      NetworkModel := flags.String (goStr "harvester-network-model")
      CloudConfig := flags.String (goStr "harvester-cloud-config")
      UserData := StringSupportBase64 (flags.String (goStr "harvester-user-data"))
      NetworkData := StringSupportBase64 (flags.String (goStr "harvester-network-data")) }
    flags

/-- The method `SetConfigFromFlags` (lines 143-177): the receiver after the call, and the error returned,
which is that of `checkConfig` on the record just filled. -/
def SetConfigFromFlags (d : Driver) (flags : DriverOptions) : Driver × GoError :=
  let d := populate d flags
  (d, checkConfig d)

/-! ## The spec's words, for comparison with the code -/

/-- The default column of the option table of the spec (section 6): a text or a number; a
row marked with a dash has the empty text. -/
inductive SpecDefault where
  | text (s : GoString)
  | number (n : ℤ)
  deriving DecidableEq, Repr

/-- The option table of the spec (section 6), row by row: option name, environment alias and
the default value. The two framework defaults are parameters. -/
def specOptionTable (frameworkSSHUser : GoString) (frameworkSSHPort : ℤ) :
    List (GoString × GoString × SpecDefault) :=
  [ (goStr "harvester-kubeconfig-content", goStr "HARVESTER_KUBECONFIG_CONTENT", .text []),
    (goStr "harvester-cluster-type", goStr "HARVESTER_CLUSTER_TYPE", .text []),
    (goStr "harvester-cluster-id", goStr "HARVESTER_CLUSTER_ID", .text []),
    (goStr "harvester-vm-namespace", goStr "HARVESTER_VM_NAMESPACE", .text (goStr "default")),
    (goStr "harvester-cpu-count", goStr "HARVESTER_CPU_COUNT", .number 2),
    (goStr "harvester-memory-size", goStr "HARVESTER_MEMORY_SIZE", .number 4),
    (goStr "harvester-disk-size", goStr "HARVESTER_DISK_SIZE", .number 40),
    (goStr "harvester-disk-bus", goStr "HARVESTER_DISK_BUS", .text (goStr "virtio")),
    (goStr "harvester-image-name", goStr "HARVESTER_IMAGE_NAME", .text []),
    (goStr "harvester-ssh-user", goStr "HARVESTER_SSH_USER", .text frameworkSSHUser),
    (goStr "harvester-ssh-port", goStr "HARVESTER_SSH_PORT", .number frameworkSSHPort),
    (goStr "harvester-ssh-password", goStr "HARVESTER_SSH_PASSWORD", .text []),
    (goStr "harvester-key-pair-name", goStr "HARVESTER_KEY_PAIR_NAME", .text []),
    (goStr "harvester-ssh-private-key-path", goStr "HARVESTER_SSH_PRIVATE_KEY_PATH", .text []),
    (goStr "harvester-network-type", goStr "HARVESTER_NETWORK_TYPE", .text (goStr "dhcp")),
    (goStr "harvester-network-name", goStr "HARVESTER_NETWORK_NAME", .text []),
    (goStr "harvester-network-model", goStr "HARVESTER_NETWORK_MODEL", .text (goStr "virtio")),
    (goStr "harvester-cloud-config", goStr "HARVESTER_CLOUD_CONFIG", .text []),
    (goStr "harvester-user-data", goStr "HARVESTER_USER_DATA", .text []),
    (goStr "harvester-network-data", goStr "HARVESTER_NETWORK_DATA", .text []),
    (goStr "harvester-vm-affinity", goStr "HARVESTER_VM_AFFINITY", .text []) ]

/-- The option name of a declared flag. -/
def Flag.name : Flag → GoString
  | .StringFlag _ n _ _ => n
  | .IntFlag _ n _ _ => n

/-- The environment alias of a declared flag. -/
def Flag.envVar : Flag → GoString
  | .StringFlag e _ _ _ => e
  | .IntFlag e _ _ _ => e

/-- The default a declared flag carries (its `Value`). -/
def Flag.defaultValue : Flag → SpecDefault
  | .StringFlag _ _ _ v => .text v
  | .IntFlag _ _ _ v => .number v

/-- The row of the spec's table a declared flag stands for. -/
def Flag.row (f : Flag) : GoString × GoString × SpecDefault := (f.name, f.envVar, f.defaultValue)

/-- A lookup that answers every option with the zero value: the base of the sample lookups. -/
def emptyOptions : DriverOptions :=
  { String := fun _ => [], Int := fun _ => 0, Bool := fun _ => false }

/-- A lookup given by two tables; an option absent from its table has the zero value. -/
def lookupOptions (strs : List (GoString × GoString)) (ints : List (GoString × ℤ)) :
    DriverOptions :=
  { String := fun k => (strs.lookup k).getD [],
    Int := fun k => (ints.lookup k).getD 0,
    Bool := fun _ => false }

/-- A lookup whose image name and kubeconfig content are both `YQ==`, the base64 of `a`. -/
def base64Options : DriverOptions :=
  lookupOptions [(goStr "harvester-image-name", goStr "YQ=="),
    (goStr "harvester-kubeconfig-content", goStr "YQ==")] []

/-- A record whose every field holds the zero value: a fresh `Driver`. -/
def zeroDriver : Driver :=
  { KubeConfigContent := [], VMNamespace := [], VMAffinity := [], ClusterType := [],
    ClusterID := [], CPU := 0, MemorySize := [], DiskSize := [], DiskBus := [], ImageName := [],
    SSHUser := [], SSHPort := 0, KeyPairName := [], SSHPrivateKeyPath := [], SSHPassword := [],
    NetworkType := [], NetworkName := [], NetworkModel := [], CloudConfig := [], UserData := [],
    NetworkData := [], SwarmMaster := false, SwarmHost := [], SwarmDiscovery := [] }

/-- A record with the five fields `checkConfig` reads set, every other field zero. -/
def sampleDriver (image keyPair keyPath netType netName : GoString) : Driver :=
  { zeroDriver with
    ImageName := image, KeyPairName := keyPair, SSHPrivateKeyPath := keyPath,
    NetworkType := netType, NetworkName := netName }

/-! ## The receiver threaded through the validator -/

/-- The method `checkConfig` (lines 179-196) with its pointer receiver made explicit: every
`return` hands back the record as the statements before it left it, next to the error. The
body has no assignment, so each branch hands back `d`. -/
def checkConfigState (d : Driver) : Driver × GoError :=
  if d.ImageName = [] then
    (d, errorsNew (goStr "must specify harvester image name"))
  else if d.KeyPairName ≠ [] ∧ d.SSHPrivateKeyPath = [] then
    (d, errorsNew (goStr "must specify the ssh private key path of the harvester key pair"))
  else if d.NetworkType = networkTypePod then
    (d, none)
  else if d.NetworkType = networkTypeDHCP then
    if d.NetworkName = [] then
      (d, errorsNew (goStr "must specify harvester network name"))
    else
      (d, none)
  else
    (d, some (goStr "unknown network type " ++ d.NetworkType))

/-! ## The lookups of the populator, logged -/

/-- The getter a read goes through: `flags.String`, `flags.Int` or `flags.Bool`. -/
inductive OptionKind where
  | stringOption
  | intOption
  | boolOption
  deriving DecidableEq, Repr

/-- The kind a declared flag has: `mcnflag.StringFlag` or `mcnflag.IntFlag`. -/
def Flag.kind : Flag → OptionKind
  | .StringFlag _ _ _ _ => .stringOption
  | .IntFlag _ _ _ _ => .intOption

/-- A lookup together with the log of the reads made through it so far. -/
structure LoggedOptions where
  flags : DriverOptions
  log : List (OptionKind × GoString)

/-- A call `flags.String(name)`: the value, and the log with this read appended. -/
def LoggedOptions.String (l : LoggedOptions) (name : GoString) : GoString × LoggedOptions :=
  (l.flags.String name, { l with log := l.log ++ [(OptionKind.stringOption, name)] })

/-- A call `flags.Int(name)`: the value, and the log with this read appended. -/
def LoggedOptions.Int (l : LoggedOptions) (name : GoString) : ℤ × LoggedOptions :=
  (l.flags.Int name, { l with log := l.log ++ [(OptionKind.intOption, name)] })

/-- A call `flags.Bool(name)`: the value, and the log with this read appended. -/
def LoggedOptions.Bool (l : LoggedOptions) (name : GoString) : GoBool × LoggedOptions :=
  (l.flags.Bool name, { l with log := l.log ++ [(OptionKind.boolOption, name)] })

/-- Lines 144-172 of `SetConfigFromFlags`, statement by statement, with every call of
`flags.String` and `flags.Int` logged in the order of the source: the record and the log as
they stand before line 174. -/
def assignFieldsLogged (d : Driver) (l : LoggedOptions) : Driver × LoggedOptions :=
  let (kubeConfigContent, l) := l.String (goStr "harvester-kubeconfig-content")
  let (vmNamespace, l) := l.String (goStr "harvester-vm-namespace")
  let (vmAffinity, l) := l.String (goStr "harvester-vm-affinity")
  let (clusterType, l) := l.String (goStr "harvester-cluster-type")
  let (clusterID, l) := l.String (goStr "harvester-cluster-id")
  let (cpu, l) := l.Int (goStr "harvester-cpu-count")
  let (memorySize, l) := l.Int (goStr "harvester-memory-size")
  let (diskSize, l) := l.Int (goStr "harvester-disk-size")
  let (diskBus, l) := l.String (goStr "harvester-disk-bus")
  let (imageName, l) := l.String (goStr "harvester-image-name")
  let (sshUser, l) := l.String (goStr "harvester-ssh-user")
  let (sshPort, l) := l.Int (goStr "harvester-ssh-port")
  let (keyPairName, l) := l.String (goStr "harvester-key-pair-name")
  let (sshPrivateKeyPath, l) := l.String (goStr "harvester-ssh-private-key-path")
  let (sshPassword, l) := l.String (goStr "harvester-ssh-password")
  let (networkType, l) := l.String (goStr "harvester-network-type")
  let (networkName, l) := l.String (goStr "harvester-network-name")
  let (networkModel, l) := l.String (goStr "harvester-network-model")
  let (cloudConfig, l) := l.String (goStr "harvester-cloud-config")
  let (userData, l) := l.String (goStr "harvester-user-data")
  let (networkData, l) := l.String (goStr "harvester-network-data")
  ({ d with
    KubeConfigContent := StringSupportBase64 kubeConfigContent
    VMNamespace := vmNamespace
    VMAffinity := StringSupportBase64 vmAffinity
    ClusterType := clusterType
    ClusterID := clusterID
    CPU := cpu
    MemorySize := formatInt memorySize ++ goStr "Gi"
    DiskSize := formatInt diskSize ++ goStr "Gi"
    DiskBus := diskBus
    ImageName := imageName
    SSHUser := sshUser
    SSHPort := sshPort
    KeyPairName := keyPairName
    SSHPrivateKeyPath := sshPrivateKeyPath
    SSHPassword := sshPassword
    NetworkType := networkType
    NetworkName := networkName
    NetworkModel := networkModel
    CloudConfig := cloudConfig
    UserData := StringSupportBase64 userData
    NetworkData := StringSupportBase64 networkData }, l)

/-- The method `BaseDriver.SetSwarmConfigFromFlags` of the host framework with its three reads
logged: `flags.Bool` of `swarm-master`, then `flags.String` of `swarm-host` and of
`swarm-discovery`. -/
def SetSwarmConfigFromFlagsLogged (d : Driver) (l : LoggedOptions) : Driver × LoggedOptions :=
  let (swarmMaster, l) := l.Bool (goStr "swarm-master")
  let (swarmHost, l) := l.String (goStr "swarm-host")
  let (swarmDiscovery, l) := l.String (goStr "swarm-discovery")
  ({ d with SwarmMaster := swarmMaster, SwarmHost := swarmHost,
            SwarmDiscovery := swarmDiscovery }, l)

/-- The assignments of `SetConfigFromFlags` (lines 144-174) with every read the call makes
logged: the 21 reads of lines 144-172, then the three reads that `SetSwarmConfigFromFlags`
makes on line 174. -/
def populateLogged (d : Driver) (l : LoggedOptions) : Driver × LoggedOptions :=
  let (d, l) := assignFieldsLogged d l
  SetSwarmConfigFromFlagsLogged d l

/-- The three reads of line 174, in the order `SetSwarmConfigFromFlags` makes them. -/
def swarmReads : List (OptionKind × GoString) :=
  [(OptionKind.boolOption, goStr "swarm-master"),
    (OptionKind.stringOption, goStr "swarm-host"),
    (OptionKind.stringOption, goStr "swarm-discovery")]

/-- The read that fetches a declared flag: its kind and its option name. -/
def Flag.read (f : Flag) : OptionKind × GoString := (f.kind, f.name)

/-! ## Lookups that fall back on the declared defaults -/

/-- The default a catalog declares for a string option; the empty string when the catalog
declares no string option of that name. -/
def defaultString (catalog : List Flag) (name : GoString) : GoString :=
  match catalog.find? (fun f => f.name == name) with
  | some (.StringFlag _ _ _ v) => v
  | _ => []

/-- The default a catalog declares for an integer option; zero when the catalog declares no
integer option of that name. -/
def defaultInt (catalog : List Flag) (name : GoString) : ℤ :=
  match catalog.find? (fun f => f.name == name) with
  | some (.IntFlag _ _ _ v) => v
  | _ => 0

/-- A lookup given by two tables of set options; an option absent from its table has the
default the catalog declares for it. -/
def lookupWithDefaults (catalog : List Flag) (strs : List (GoString × GoString))
    (ints : List (GoString × ℤ)) : DriverOptions :=
  { String := fun k => (strs.lookup k).getD (defaultString catalog k),
    Int := fun k => (ints.lookup k).getD (defaultInt catalog k),
    Bool := fun _ => false }

/-- The lookup of the first scenario of the spec (section 8): CPU count 8, memory size 16,
image name `ubuntu`, every other option at the default `GetCreateFlags` declares. -/
def scenarioOptions (DefaultSSHUser : GoString) (DefaultSSHPort : ℤ) : DriverOptions :=
  lookupWithDefaults (GetCreateFlags DefaultSSHUser DefaultSSHPort)
    [(goStr "harvester-image-name", goStr "ubuntu")]
    [(goStr "harvester-cpu-count", 8), (goStr "harvester-memory-size", 16)]

/-- The lookup of the second scenario of the spec (section 8): the first one with the network
name `mgmt` set as well. -/
def scenarioOptionsWithNetwork (DefaultSSHUser : GoString) (DefaultSSHPort : ℤ) :
    DriverOptions :=
  lookupWithDefaults (GetCreateFlags DefaultSSHUser DefaultSSHPort)
    [(goStr "harvester-image-name", goStr "ubuntu"),
      (goStr "harvester-network-name", goStr "mgmt")]
    [(goStr "harvester-cpu-count", 8), (goStr "harvester-memory-size", 16)]

/-- A record every text field of which holds `old` and every number 7: a receiver that was
filled before the call. -/
def usedDriver : Driver :=
  { KubeConfigContent := goStr "old", VMNamespace := goStr "old", VMAffinity := goStr "old",
    ClusterType := goStr "old", ClusterID := goStr "old", CPU := 7, MemorySize := goStr "old",
    DiskSize := goStr "old", DiskBus := goStr "old", ImageName := goStr "old",
    SSHUser := goStr "old", SSHPort := 7, KeyPairName := goStr "old",
    SSHPrivateKeyPath := goStr "old", SSHPassword := goStr "old", NetworkType := goStr "old",
    NetworkName := goStr "old", NetworkModel := goStr "old", CloudConfig := goStr "old",
    UserData := goStr "old", NetworkData := goStr "old", SwarmMaster := true,
    SwarmHost := goStr "old", SwarmDiscovery := goStr "old" }

/-! ## The validator -/

theorem networkTypePod_ne_DHCP : networkTypePod ≠ networkTypeDHCP := by decide

theorem unknown_message_head (x : GoString) :
    (goStr "unknown network type " ++ x).head? = some 117 := by
  rfl

theorem unknown_ne_imageName (x : GoString) :
    goStr "unknown network type " ++ x ≠ goStr "must specify harvester image name" := by
  intro h
  have h1 := congrArg List.head? h
  rw [unknown_message_head] at h1
  exact absurd h1 (by decide)

theorem unknown_ne_keyPath (x : GoString) :
    goStr "unknown network type " ++ x ≠
      goStr "must specify the ssh private key path of the harvester key pair" := by
  intro h
  have h1 := congrArg List.head? h
  rw [unknown_message_head] at h1
  exact absurd h1 (by decide)

theorem unknown_ne_networkName (x : GoString) :
    goStr "unknown network type " ++ x ≠ goStr "must specify harvester network name" := by
  intro h
  have h1 := congrArg List.head? h
  rw [unknown_message_head] at h1
  exact absurd h1 (by decide)

/-- The success case of `checkConfig`, shared by the theorems below. -/
theorem checkConfig_none_iff (d : Driver) :
    checkConfig d = none ↔
      d.ImageName ≠ [] ∧ (d.KeyPairName ≠ [] → d.SSHPrivateKeyPath ≠ []) ∧
      (d.NetworkType = goStr "pod" ∨ d.NetworkType = goStr "dhcp") ∧
      (d.NetworkType = goStr "dhcp" → d.NetworkName ≠ []) := by
  have hne := networkTypePod_ne_DHCP
  unfold checkConfig errorsNew
  unfold networkTypePod networkTypeDHCP at *
  by_cases h1 : d.ImageName = []
  · simp [h1]
  by_cases h2 : d.KeyPairName ≠ [] ∧ d.SSHPrivateKeyPath = []
  · simp [h1, h2]
  by_cases h3 : d.NetworkType = goStr "pod"
  · have h3' : goStr "pod" ≠ goStr "dhcp" := hne
    simp only [h1, h2, h3, if_true, if_false, true_and, ne_eq, not_false_eq_true, true_or]
    constructor
    · intro _
      refine ⟨?_, fun h => absurd h h3'⟩
      intro hk hp
      exact h2 ⟨hk, hp⟩
    · intro _
      trivial
  by_cases h4 : d.NetworkType = goStr "dhcp"
  · by_cases h5 : d.NetworkName = []
    · simp [h1, h2, h3, h4, h5, hne, Ne.symm hne]
    · simp only [h1, h2, h3, h4, h5, if_true, if_false, true_and, ne_eq, not_false_eq_true,
        or_true, hne]
      constructor
      · intro _
        refine ⟨?_, fun _ => trivial⟩
        intro hk hp
        exact h2 ⟨hk, hp⟩
      · intro _
        trivial
  · simp [h1, h2, h3, h4]

/-- C1: `checkConfig` returns `nil` if and only if the four invariants hold together: the image
name is non-empty; a non-empty key pair name comes with a non-empty private key path; the
network type is exactly `pod` or `dhcp`; and `dhcp` comes with a non-empty network name. -/
theorem checkConfig_succeeds_iff_invariants (d : Driver) :
    checkConfig d = none ↔
      (d.ImageName ≠ [] ∧
       (d.KeyPairName ≠ [] → d.SSHPrivateKeyPath ≠ []) ∧
       (d.NetworkType = goStr "pod" ∨ d.NetworkType = goStr "dhcp") ∧
       (d.NetworkType = goStr "dhcp" → d.NetworkName ≠ [])) :=
  checkConfig_none_iff d

theorem checkConfig_imageName (d : Driver) (h1 : d.ImageName = []) :
    checkConfig d = some (goStr "must specify harvester image name") := by
  simp [checkConfig, errorsNew, h1]

theorem checkConfig_keyPath (d : Driver) (h1 : d.ImageName ≠ [])
    (h2 : d.KeyPairName ≠ [] ∧ d.SSHPrivateKeyPath = []) :
    checkConfig d =
      some (goStr "must specify the ssh private key path of the harvester key pair") := by
  simp [checkConfig, errorsNew, h1, h2.1, h2.2]

theorem checkConfig_unknownType (d : Driver) (h1 : d.ImageName ≠ [])
    (h2 : d.KeyPairName ≠ [] → d.SSHPrivateKeyPath ≠ [])
    (h3 : ¬ (d.NetworkType = goStr "pod" ∨ d.NetworkType = goStr "dhcp")) :
    checkConfig d = some (goStr "unknown network type " ++ d.NetworkType) := by
  have hp : d.NetworkType ≠ goStr "pod" := fun h => h3 (Or.inl h)
  have hd : d.NetworkType ≠ goStr "dhcp" := fun h => h3 (Or.inr h)
  have h2' : ¬ (d.KeyPairName ≠ [] ∧ d.SSHPrivateKeyPath = []) := fun h => h2 h.1 h.2
  unfold checkConfig networkTypePod networkTypeDHCP
  rw [if_neg h1, if_neg h2', if_neg hp, if_neg hd]

theorem checkConfig_networkName (d : Driver) (h1 : d.ImageName ≠ [])
    (h2 : d.KeyPairName ≠ [] → d.SSHPrivateKeyPath ≠ [])
    (h4 : d.NetworkType = goStr "dhcp" ∧ d.NetworkName = []) :
    checkConfig d = some (goStr "must specify harvester network name") := by
  have hp : d.NetworkType ≠ goStr "pod" := by
    rw [h4.1]
    exact Ne.symm networkTypePod_ne_DHCP
  have h2' : ¬ (d.KeyPairName ≠ [] ∧ d.SSHPrivateKeyPath = []) := fun h => h2 h.1 h.2
  unfold checkConfig networkTypePod networkTypeDHCP errorsNew
  rw [if_neg h1, if_neg h2', if_neg hp, if_pos h4.1, if_pos h4.2]

/-- C2: on a record that violates an invariant, `checkConfig` returns exactly the error of the
lowest-numbered violated invariant, in the order image name, private key path, unknown network
type, network name; and when an earlier invariant is violated it never returns the error of a
later one. -/
theorem checkConfig_first_violated_invariant (d : Driver) :
    (d.ImageName = [] →
      checkConfig d = some (goStr "must specify harvester image name")) ∧
    (d.ImageName ≠ [] → (d.KeyPairName ≠ [] ∧ d.SSHPrivateKeyPath = []) →
      checkConfig d =
        some (goStr "must specify the ssh private key path of the harvester key pair")) ∧
    (d.ImageName ≠ [] → (d.KeyPairName ≠ [] → d.SSHPrivateKeyPath ≠ []) →
      ¬ (d.NetworkType = goStr "pod" ∨ d.NetworkType = goStr "dhcp") →
      checkConfig d = some (goStr "unknown network type " ++ d.NetworkType)) ∧
    (d.ImageName ≠ [] → (d.KeyPairName ≠ [] → d.SSHPrivateKeyPath ≠ []) →
      (d.NetworkType = goStr "pod" ∨ d.NetworkType = goStr "dhcp") →
      (d.NetworkType = goStr "dhcp" ∧ d.NetworkName = []) →
      checkConfig d = some (goStr "must specify harvester network name")) ∧
    (d.ImageName = [] →
      checkConfig d ≠
        some (goStr "must specify the ssh private key path of the harvester key pair") ∧
      checkConfig d ≠ some (goStr "unknown network type " ++ d.NetworkType) ∧
      checkConfig d ≠ some (goStr "must specify harvester network name")) ∧
    ((d.KeyPairName ≠ [] ∧ d.SSHPrivateKeyPath = []) →
      checkConfig d ≠ some (goStr "unknown network type " ++ d.NetworkType) ∧
      checkConfig d ≠ some (goStr "must specify harvester network name")) ∧
    (¬ (d.NetworkType = goStr "pod" ∨ d.NetworkType = goStr "dhcp") →
      checkConfig d ≠ some (goStr "must specify harvester network name")) := by
  refine ⟨checkConfig_imageName d, checkConfig_keyPath d, checkConfig_unknownType d,
    fun h1 h2 _ h4 => checkConfig_networkName d h1 h2 h4, ?_, ?_, ?_⟩
  · intro h1
    rw [checkConfig_imageName d h1]
    refine ⟨by decide, ?_, by decide⟩
    intro h
    exact unknown_ne_imageName _ (Option.some.inj h).symm
  · intro h2
    by_cases h1 : d.ImageName = []
    · rw [checkConfig_imageName d h1]
      refine ⟨?_, by decide⟩
      intro h
      exact unknown_ne_imageName _ (Option.some.inj h).symm
    · rw [checkConfig_keyPath d h1 h2]
      refine ⟨?_, by decide⟩
      intro h
      exact unknown_ne_keyPath _ (Option.some.inj h).symm
  · intro h3
    by_cases h1 : d.ImageName = []
    · rw [checkConfig_imageName d h1]
      decide
    by_cases h2 : d.KeyPairName ≠ [] ∧ d.SSHPrivateKeyPath = []
    · rw [checkConfig_keyPath d h1 h2]
      decide
    · have h2' : d.KeyPairName ≠ [] → d.SSHPrivateKeyPath ≠ [] := fun hk hp => h2 ⟨hk, hp⟩
      rw [checkConfig_unknownType d h1 h2' h3]
      intro h
      exact unknown_ne_networkName _ (Option.some.inj h)

/-- C2, at records that violate, in turn, invariant 1 (and 2 and 3 with it), invariant 2 (and 3
with it), invariant 3 alone and invariant 4 alone. -/
theorem checkConfig_first_violated_invariant_witness :
    checkConfig (sampleDriver [] (goStr "mykey") [] (goStr "bogus") []) =
      some (goStr "must specify harvester image name") ∧
    checkConfig (sampleDriver (goStr "ubuntu") (goStr "mykey") [] (goStr "bogus") []) =
      some (goStr "must specify the ssh private key path of the harvester key pair") ∧
    checkConfig (sampleDriver (goStr "ubuntu") [] [] (goStr "bogus") []) =
      some (goStr "unknown network type " ++ goStr "bogus") ∧
    checkConfig (sampleDriver (goStr "ubuntu") [] [] (goStr "dhcp") []) =
      some (goStr "must specify harvester network name") ∧
    checkConfig (sampleDriver [] (goStr "mykey") [] (goStr "bogus") []) ≠
      some (goStr "must specify harvester network name") :=
  ⟨(checkConfig_first_violated_invariant
      (sampleDriver [] (goStr "mykey") [] (goStr "bogus") [])).1 rfl,
   (checkConfig_first_violated_invariant
      (sampleDriver (goStr "ubuntu") (goStr "mykey") [] (goStr "bogus") [])).2.1
      (by decide) (by decide),
   (checkConfig_first_violated_invariant
      (sampleDriver (goStr "ubuntu") [] [] (goStr "bogus") [])).2.2.1
      (by decide) (by decide) (by decide),
   (checkConfig_first_violated_invariant
      (sampleDriver (goStr "ubuntu") [] [] (goStr "dhcp") [])).2.2.2.1
      (by decide) (by decide) (by decide) (by decide),
   ((checkConfig_first_violated_invariant
      (sampleDriver [] (goStr "mykey") [] (goStr "bogus") [])).2.2.2.2.1 rfl).2.2⟩

/-! ## The populator -/

/-- C3: whenever the lookup answers `harvester-image-name` with the empty string,
`SetConfigFromFlags` returns the error "must specify harvester image name", whatever the
receiver held and whatever every other option is. -/
theorem SetConfigFromFlags_empty_image_name (d : Driver) (flags : DriverOptions)
    (h : flags.String (goStr "harvester-image-name") = []) :
    (SetConfigFromFlags d flags).2 = some (goStr "must specify harvester image name") :=
  checkConfig_imageName (populate d flags) h

/-- C3 at a lookup that sets a key pair without a path and an unknown network type too. -/
theorem SetConfigFromFlags_empty_image_name_witness :
    (lookupOptions [(goStr "harvester-key-pair-name", goStr "mykey"),
        (goStr "harvester-network-type", goStr "bogus")] []).String
      (goStr "harvester-image-name") = [] ∧
    (SetConfigFromFlags zeroDriver
      (lookupOptions [(goStr "harvester-key-pair-name", goStr "mykey"),
        (goStr "harvester-network-type", goStr "bogus")] [])).2 =
      some (goStr "must specify harvester image name") :=
  ⟨by decide, SetConfigFromFlags_empty_image_name zeroDriver _ (by decide)⟩

/-- C6: after `SetConfigFromFlags` the four base64-optional fields hold `StringSupportBase64`
of the looked-up value, and the thirteen other text fields hold the looked-up string itself,
also when it is valid base64: the image name `YQ==` stays `YQ==`, where the same value as
kubeconfig content becomes `a`. -/
theorem SetConfigFromFlags_text_fields (d : Driver) (flags : DriverOptions) :
    (SetConfigFromFlags d flags).1.KubeConfigContent =
      StringSupportBase64 (flags.String (goStr "harvester-kubeconfig-content")) ∧
    (SetConfigFromFlags d flags).1.VMAffinity =
      StringSupportBase64 (flags.String (goStr "harvester-vm-affinity")) ∧
    (SetConfigFromFlags d flags).1.UserData =
      StringSupportBase64 (flags.String (goStr "harvester-user-data")) ∧
    (SetConfigFromFlags d flags).1.NetworkData =
      StringSupportBase64 (flags.String (goStr "harvester-network-data")) ∧
    (SetConfigFromFlags d flags).1.VMNamespace = flags.String (goStr "harvester-vm-namespace") ∧
    (SetConfigFromFlags d flags).1.ClusterType = flags.String (goStr "harvester-cluster-type") ∧
    (SetConfigFromFlags d flags).1.ClusterID = flags.String (goStr "harvester-cluster-id") ∧
    (SetConfigFromFlags d flags).1.DiskBus = flags.String (goStr "harvester-disk-bus") ∧
    (SetConfigFromFlags d flags).1.ImageName = flags.String (goStr "harvester-image-name") ∧
    (SetConfigFromFlags d flags).1.SSHUser = flags.String (goStr "harvester-ssh-user") ∧
    (SetConfigFromFlags d flags).1.KeyPairName =
      flags.String (goStr "harvester-key-pair-name") ∧
    (SetConfigFromFlags d flags).1.SSHPrivateKeyPath =
      flags.String (goStr "harvester-ssh-private-key-path") ∧
    (SetConfigFromFlags d flags).1.SSHPassword =
      flags.String (goStr "harvester-ssh-password") ∧
    (SetConfigFromFlags d flags).1.NetworkType = flags.String (goStr "harvester-network-type") ∧
    (SetConfigFromFlags d flags).1.NetworkName = flags.String (goStr "harvester-network-name") ∧
    (SetConfigFromFlags d flags).1.NetworkModel =
      flags.String (goStr "harvester-network-model") ∧
    (SetConfigFromFlags d flags).1.CloudConfig =
      flags.String (goStr "harvester-cloud-config") ∧
    ((SetConfigFromFlags zeroDriver base64Options).1.ImageName = goStr "YQ==" ∧
     (SetConfigFromFlags zeroDriver base64Options).1.KubeConfigContent = goStr "a") :=
  ⟨rfl, rfl, rfl, rfl, rfl, rfl, rfl, rfl, rfl, rfl, rfl, rfl, rfl, rfl, rfl, rfl, rfl,
    by decide, by decide⟩

/-- C7: `SetConfigFromFlags` sets `MemorySize` and `DiskSize` to the decimal rendering of the
looked-up integer followed by `Gi`, for every integer (zero and negative ones rendered as
`0Gi` and `-3Gi`), and sets `CPU` and `SSHPort` to the looked-up integers unchanged. -/
theorem SetConfigFromFlags_integer_fields (d : Driver) (flags : DriverOptions) :
    (SetConfigFromFlags d flags).1.MemorySize =
      formatInt (flags.Int (goStr "harvester-memory-size")) ++ goStr "Gi" ∧
    (SetConfigFromFlags d flags).1.DiskSize =
      formatInt (flags.Int (goStr "harvester-disk-size")) ++ goStr "Gi" ∧
    (SetConfigFromFlags d flags).1.CPU = flags.Int (goStr "harvester-cpu-count") ∧
    (SetConfigFromFlags d flags).1.SSHPort = flags.Int (goStr "harvester-ssh-port") ∧
    formatInt 16 ++ goStr "Gi" = goStr "16Gi" ∧
    formatInt 0 ++ goStr "Gi" = goStr "0Gi" ∧
    formatInt (-3) ++ goStr "Gi" = goStr "-3Gi" :=
  ⟨rfl, rfl, rfl, rfl, by decide, by decide, by decide⟩

/-! ## The option catalog -/

/-- C8: `GetCreateFlags` declares exactly the 21 options of the spec's table, in its order, each
with the option name, the environment alias and the default of its row; a row without
a default carries the empty string. -/
theorem GetCreateFlags_is_spec_table (DefaultSSHUser : GoString) (DefaultSSHPort : ℤ) :
    (GetCreateFlags DefaultSSHUser DefaultSSHPort).map Flag.row =
      specOptionTable DefaultSSHUser DefaultSSHPort ∧
    (GetCreateFlags DefaultSSHUser DefaultSSHPort).length = 21 :=
  ⟨rfl, rfl⟩

/-! ## Populate, then validate -/

/-- C9 as stated fails: on the lookup that answers every option with the zero value,
`SetConfigFromFlags` returns an error. -/
theorem SetConfigFromFlags_can_fail :
    ¬ ((SetConfigFromFlags zeroDriver emptyOptions).2 = none) := by
  decide

/-- C9, amended: the transfer of `SetConfigFromFlags` yields a record for every lookup and
checks nothing; the error `SetConfigFromFlags` returns is that of `checkConfig` on the record
just filled, so it is `nil` exactly when the looked-up values satisfy the four invariants. -/
theorem SetConfigFromFlags_error_is_checkConfig (d : Driver) (flags : DriverOptions) :
    (SetConfigFromFlags d flags).1 = populate d flags ∧
    (SetConfigFromFlags d flags).2 = checkConfig (populate d flags) ∧
    ((SetConfigFromFlags d flags).2 = none ↔
      (flags.String (goStr "harvester-image-name") ≠ [] ∧
       (flags.String (goStr "harvester-key-pair-name") ≠ [] →
         flags.String (goStr "harvester-ssh-private-key-path") ≠ []) ∧
       (flags.String (goStr "harvester-network-type") = goStr "pod" ∨
         flags.String (goStr "harvester-network-type") = goStr "dhcp") ∧
       (flags.String (goStr "harvester-network-type") = goStr "dhcp" →
         flags.String (goStr "harvester-network-name") ≠ []))) :=
  ⟨rfl, rfl, checkConfig_none_iff (populate d flags)⟩

/-- C10 as stated fails: with the key pair name `mykey`, an empty private key path and an empty
image name, `SetConfigFromFlags` returns the image-name error, not the private-key-path one. -/
theorem SetConfigFromFlags_key_pair_counterexample :
    (lookupOptions [(goStr "harvester-key-pair-name", goStr "mykey")] []).String
      (goStr "harvester-key-pair-name") = goStr "mykey" ∧
    (lookupOptions [(goStr "harvester-key-pair-name", goStr "mykey")] []).String
      (goStr "harvester-ssh-private-key-path") = [] ∧
    (SetConfigFromFlags zeroDriver
      (lookupOptions [(goStr "harvester-key-pair-name", goStr "mykey")] [])).2 =
      some (goStr "must specify harvester image name") ∧
    (SetConfigFromFlags zeroDriver
      (lookupOptions [(goStr "harvester-key-pair-name", goStr "mykey")] [])).2 ≠
      some (goStr "must specify the ssh private key path of the harvester key pair") := by
  decide

/-- C10, amended: whenever the lookup answers `harvester-image-name` with a non-empty string,
`harvester-key-pair-name` with `mykey` and `harvester-ssh-private-key-path` with the empty
string, `SetConfigFromFlags` returns the error "must specify the ssh private key path of the
harvester key pair". -/
theorem SetConfigFromFlags_missing_private_key_path (d : Driver) (flags : DriverOptions)
    (himg : flags.String (goStr "harvester-image-name") ≠ [])
    (hkey : flags.String (goStr "harvester-key-pair-name") = goStr "mykey")
    (hpath : flags.String (goStr "harvester-ssh-private-key-path") = []) :
    (SetConfigFromFlags d flags).2 =
      some (goStr "must specify the ssh private key path of the harvester key pair") := by
  apply checkConfig_keyPath (populate d flags) himg
  constructor
  · show flags.String (goStr "harvester-key-pair-name") ≠ []
    rw [hkey]
    decide
  · exact hpath

/-- C10, amended, at the lookup with image `ubuntu`, key pair `mykey` and no path. -/
theorem SetConfigFromFlags_missing_private_key_path_witness :
    (SetConfigFromFlags zeroDriver
      (lookupOptions [(goStr "harvester-image-name", goStr "ubuntu"),
        (goStr "harvester-key-pair-name", goStr "mykey")] [])).2 =
      some (goStr "must specify the ssh private key path of the harvester key pair") :=
  SetConfigFromFlags_missing_private_key_path zeroDriver
    (lookupOptions [(goStr "harvester-image-name", goStr "ubuntu"),
      (goStr "harvester-key-pair-name", goStr "mykey")] [])
    (by decide) (by decide) (by decide)

/-! ## The base64-optional decoder -/

theorem shl_or_eq_add (x y k : Nat) (h : y < 2 ^ k) : x <<< k ||| y = x * 2 ^ k + y := by
  rw [Nat.shiftLeft_eq, Nat.mul_comm x, Nat.mul_add_lt_is_or h]

theorem and_63_eq_mod (x : Nat) : x &&& 63 = x % 64 := Nat.and_pow_two_sub_one_eq_mod x 6

theorem pack_bytes (a b c : Nat) (hb : b < 256) (hc : c < 256) :
    a <<< 16 ||| b <<< 8 ||| c = a * 65536 + b * 256 + c := by
  have h1 : b <<< 8 = b * 256 := by rw [Nat.shiftLeft_eq]
  rw [h1, shl_or_eq_add a (b * 256) 16 (by omega)]
  have h2 : a * 2 ^ 16 + b * 256 = (a * 256 + b) <<< 8 := by rw [Nat.shiftLeft_eq]; omega
  rw [h2, shl_or_eq_add _ c 8 (by omega)]
  omega

theorem pack_sextets (s0 s1 s2 s3 : Nat) (h1 : s1 < 64) (h2 : s2 < 64) (h3 : s3 < 64) :
    s0 <<< 18 ||| s1 <<< 12 ||| s2 <<< 6 ||| s3 = s0 * 262144 + s1 * 4096 + s2 * 64 + s3 := by
  have e1 : s1 <<< 12 = s1 * 4096 := by rw [Nat.shiftLeft_eq]
  rw [e1, shl_or_eq_add s0 _ 18 (by omega)]
  have e2 : s0 * 2 ^ 18 + s1 * 4096 = (s0 * 64 + s1) <<< 12 := by rw [Nat.shiftLeft_eq]; omega
  have e3 : s2 <<< 6 = s2 * 64 := by rw [Nat.shiftLeft_eq]
  rw [e2, e3, shl_or_eq_add _ _ 12 (by omega)]
  have e4 : (s0 * 64 + s1) * 2 ^ 12 + s2 * 64 = ((s0 * 64 + s1) * 64 + s2) <<< 6 := by
    rw [Nat.shiftLeft_eq]; omega
  rw [e4, shl_or_eq_add _ _ 6 (by omega)]
  omega

theorem toNat_ofNat_u8 (n : Nat) : (UInt8.ofNat n).toNat = n % 256 := rfl

theorem ofNat_toNat_u8 (x : UInt8) : UInt8.ofNat x.toNat = x := by
  cases x with
  | mk v =>
    apply UInt8.ext
    simp [UInt8.ofNat, UInt8.toNat, Fin.ofNat]

/-- The decode table inverts the encode table on the 64 six-bit values. -/
theorem decodeMap_encode_fin : ∀ i : Fin 64, decodeMap (encode i.val) = UInt8.ofNat i.val := by
  decide

theorem decodeMap_encode (i : Nat) (h : i < 64) : decodeMap (encode i) = UInt8.ofNat i :=
  decodeMap_encode_fin ⟨i, h⟩

theorem decodeMap_encode_ne (i : Nat) (h : i < 64) : decodeMap (encode i) ≠ 0xff := by
  rw [decodeMap_encode i h]
  intro h2
  have h3 := congrArg UInt8.toNat h2
  rw [toNat_ofNat_u8] at h3
  have h4 : (0xff : UInt8).toNat = 255 := rfl
  omega

theorem ofNat_eq_of_mod_u8 (n : Nat) (x : UInt8) (h : n % 256 = x.toNat) : UInt8.ofNat n = x := by
  apply UInt8.ext
  rw [toNat_ofNat_u8, h]

/-- Three bytes, cut into four six-bit values and packed again, come back. -/
theorem quantumBytes_sextets (a b c : UInt8) :
    quantumBytes
      (UInt8.ofNat ((a.toNat <<< 16 ||| b.toNat <<< 8 ||| c.toNat) >>> 18 &&& 0x3F))
      (UInt8.ofNat ((a.toNat <<< 16 ||| b.toNat <<< 8 ||| c.toNat) >>> 12 &&& 0x3F))
      (UInt8.ofNat ((a.toNat <<< 16 ||| b.toNat <<< 8 ||| c.toNat) >>> 6 &&& 0x3F))
      (UInt8.ofNat ((a.toNat <<< 16 ||| b.toNat <<< 8 ||| c.toNat) &&& 0x3F)) = [a, b, c] := by
  have ha := UInt8.toNat_lt_size a
  have hb := UInt8.toNat_lt_size b
  have hc := UInt8.toNat_lt_size c
  simp only [UInt8.size] at ha hb hc
  unfold quantumBytes
  simp only [toNat_ofNat_u8, and_63_eq_mod, Nat.shiftRight_eq_div_pow]
  rw [pack_bytes _ _ _ hb hc]
  generalize hv : a.toNat * 65536 + b.toNat * 256 + c.toNat = v
  rw [pack_sextets _ _ _ _ (by omega) (by omega) (by omega)]
  rw [ofNat_eq_of_mod_u8 _ a (by omega), ofNat_eq_of_mod_u8 _ b (by omega),
    ofNat_eq_of_mod_u8 _ c (by omega)]

/-- Two bytes, cut into three six-bit values and packed again, come back. -/
theorem quantumBytes_two (a b : UInt8) :
    (quantumBytes
      (UInt8.ofNat ((a.toNat <<< 16 ||| b.toNat <<< 8) >>> 18 &&& 0x3F))
      (UInt8.ofNat ((a.toNat <<< 16 ||| b.toNat <<< 8) >>> 12 &&& 0x3F))
      (UInt8.ofNat ((a.toNat <<< 16 ||| b.toNat <<< 8) >>> 6 &&& 0x3F)) 0).take 2 = [a, b] := by
  have ha := UInt8.toNat_lt_size a
  have hb := UInt8.toNat_lt_size b
  simp only [UInt8.size] at ha hb
  have h0 : (0 : UInt8).toNat = 0 := rfl
  have hp : a.toNat <<< 16 ||| b.toNat <<< 8 = a.toNat * 65536 + b.toNat * 256 := by
    have h1 : b.toNat <<< 8 = b.toNat * 256 := by rw [Nat.shiftLeft_eq]
    rw [h1, shl_or_eq_add _ _ 16 (by omega)]
    omega
  unfold quantumBytes
  simp only [toNat_ofNat_u8, and_63_eq_mod, Nat.shiftRight_eq_div_pow, h0, List.take_succ_cons,
    List.take_zero]
  rw [hp]
  generalize hv : a.toNat * 65536 + b.toNat * 256 = v
  rw [pack_sextets _ _ _ _ (by omega) (by omega) (by omega)]
  rw [ofNat_eq_of_mod_u8 _ a (by omega), ofNat_eq_of_mod_u8 _ b (by omega)]

/-- One byte, cut into two six-bit values and packed again, comes back. -/
theorem quantumBytes_one (a : UInt8) :
    (quantumBytes
      (UInt8.ofNat ((a.toNat <<< 16) >>> 18 &&& 0x3F))
      (UInt8.ofNat ((a.toNat <<< 16) >>> 12 &&& 0x3F)) 0 0).take 1 = [a] := by
  have ha := UInt8.toNat_lt_size a
  simp only [UInt8.size] at ha
  have h0 : (0 : UInt8).toNat = 0 := rfl
  have hp : a.toNat <<< 16 = a.toNat * 65536 := by rw [Nat.shiftLeft_eq]
  unfold quantumBytes
  simp only [toNat_ofNat_u8, and_63_eq_mod, Nat.shiftRight_eq_div_pow, h0, List.take_succ_cons,
    List.take_zero]
  rw [hp]
  generalize hv : a.toNat * 65536 = v
  rw [pack_sextets _ _ _ _ (by omega) (by omega) (by omega)]
  rw [ofNat_eq_of_mod_u8 _ a (by omega)]

theorem and_63_lt (x : Nat) : x &&& 0x3F < 64 := by
  rw [and_63_eq_mod]
  omega

theorem decodeFrom_value0 (c : UInt8) (rest : List UInt8) (h : decodeMap c ≠ 0xff) :
    decodeFrom [] (c :: rest) = decodeFrom [decodeMap c] rest := by
  simp [decodeFrom, h]

theorem decodeFrom_value1 (d0 c : UInt8) (rest : List UInt8) (h : decodeMap c ≠ 0xff) :
    decodeFrom [d0] (c :: rest) = decodeFrom [d0, decodeMap c] rest := by
  simp [decodeFrom, h]

theorem decodeFrom_value2 (d0 d1 c : UInt8) (rest : List UInt8) (h : decodeMap c ≠ 0xff) :
    decodeFrom [d0, d1] (c :: rest) = decodeFrom [d0, d1, decodeMap c] rest := by
  simp [decodeFrom, h]

theorem decodeFrom_value3 (d0 d1 d2 c : UInt8) (rest : List UInt8) (h : decodeMap c ≠ 0xff) :
    decodeFrom [d0, d1, d2] (c :: rest) =
      (decodeFrom [] rest).map (fun tl => quantumBytes d0 d1 d2 (decodeMap c) ++ tl) := by
  simp [decodeFrom, h]

theorem decodeMap_padding : decodeMap StdPadding = 0xff := by decide

theorem decodeFrom_padding2 (d0 d1 : UInt8) :
    decodeFrom [d0, d1] [StdPadding, StdPadding] = some ((quantumBytes d0 d1 0 0).take 1) := by
  have h1 : ¬ (StdPadding = 10 ∨ StdPadding = 13) := by decide
  simp [decodeFrom, decodeMap_padding, h1, skipNewlines]

theorem decodeFrom_padding1 (d0 d1 d2 : UInt8) :
    decodeFrom [d0, d1, d2] [StdPadding] = some ((quantumBytes d0 d1 d2 0).take 2) := by
  have h1 : ¬ (StdPadding = 10 ∨ StdPadding = 13) := by decide
  simp [decodeFrom, decodeMap_padding, h1, skipNewlines]

/-- The decoder inverts the encoder. -/
theorem DecodeString_EncodeToString (b : List UInt8) :
    DecodeString (EncodeToString b) = some b := by
  unfold DecodeString
  induction b using EncodeToString.induct with
  | case1 => rfl
  | case2 a =>
    simp only [EncodeToString]
    rw [decodeFrom_value0 _ _ (decodeMap_encode_ne _ (and_63_lt _)),
      decodeFrom_value1 _ _ _ (decodeMap_encode_ne _ (and_63_lt _)),
      decodeMap_encode _ (and_63_lt _), decodeMap_encode _ (and_63_lt _),
      decodeFrom_padding2, quantumBytes_one]
  | case3 a b =>
    simp only [EncodeToString]
    rw [decodeFrom_value0 _ _ (decodeMap_encode_ne _ (and_63_lt _)),
      decodeFrom_value1 _ _ _ (decodeMap_encode_ne _ (and_63_lt _)),
      decodeFrom_value2 _ _ _ _ (decodeMap_encode_ne _ (and_63_lt _)),
      decodeMap_encode _ (and_63_lt _), decodeMap_encode _ (and_63_lt _),
      decodeMap_encode _ (and_63_lt _), decodeFrom_padding1, quantumBytes_two]
  | case4 a b c rest ih =>
    simp only [EncodeToString, List.cons_append, List.nil_append]
    rw [decodeFrom_value0 _ _ (decodeMap_encode_ne _ (and_63_lt _)),
      decodeFrom_value1 _ _ _ (decodeMap_encode_ne _ (and_63_lt _)),
      decodeFrom_value2 _ _ _ _ (decodeMap_encode_ne _ (and_63_lt _)),
      decodeFrom_value3 _ _ _ _ _ (decodeMap_encode_ne _ (and_63_lt _)),
      decodeMap_encode _ (and_63_lt _), decodeMap_encode _ (and_63_lt _),
      decodeMap_encode _ (and_63_lt _), decodeMap_encode _ (and_63_lt _), ih,
      quantumBytes_sextets]
    rfl

theorem mem_skipNewlines (c : UInt8) (hc : ¬ (c = 10 ∨ c = 13)) :
    ∀ s : List UInt8, c ∈ s → c ∈ skipNewlines s := by
  intro s
  induction s with
  | nil => intro h; exact h
  | cons x xs ih =>
    intro h
    unfold skipNewlines
    by_cases hx : x = 10 ∨ x = 13
    · rw [if_pos hx]
      rcases List.mem_cons.mp h with h1 | h1
      · exact absurd (h1 ▸ hx) hc
      · exact ih h1
    · rw [if_neg hx]
      exact h

/-- A byte that is neither of the alphabet, nor `=`, nor `\r` or `\n` makes the decoder fail,
wherever it stands. -/
theorem decodeFrom_foreign_byte (c : UInt8) (h0 : decodeMap c = 0xff) (hnl : ¬ (c = 10 ∨ c = 13))
    (hpad : c ≠ StdPadding) :
    ∀ (s dbuf : List UInt8), c ∈ s → decodeFrom dbuf s = none := by
  intro s
  induction s with
  | nil => intro dbuf h; exact absurd h (List.not_mem_nil c)
  | cons x xs ih =>
    intro dbuf h
    by_cases hxc : x = c
    · subst hxc
      unfold decodeFrom
      simp [h0, hnl, hpad]
    · have hmem : c ∈ xs := by
        rcases List.mem_cons.mp h with h1 | h1
        · exact absurd h1.symm hxc
        · exact h1
      unfold decodeFrom
      by_cases hv : decodeMap x ≠ 0xff
      · rw [if_pos hv]
        split
        · rw [ih [] hmem]
          rfl
        · exact ih _ hmem
      · rw [if_neg hv]
        by_cases hx : x = 10 ∨ x = 13
        · rw [if_pos hx]
          exact ih _ hmem
        · rw [if_neg hx]
          by_cases hp : x ≠ StdPadding
          · rw [if_pos hp]
          · rw [if_neg hp]
            have hsk := mem_skipNewlines c hnl xs hmem
            split
            · split
              · rfl
              · rename_i p rest2 heq
                rw [heq] at hsk
                by_cases hpp : p ≠ StdPadding
                · rw [if_pos hpp]
                · rw [if_neg hpp]
                  have hpc : c ∈ rest2 := by
                    rcases List.mem_cons.mp hsk with h1 | h1
                    · exact absurd (h1.trans (not_not.mp hpp)) hpad
                    · exact h1
                  have hne : skipNewlines rest2 ≠ [] :=
                    List.ne_nil_of_mem (mem_skipNewlines c hnl rest2 hpc)
                  rw [if_pos hne]
            · have hne : skipNewlines xs ≠ [] := List.ne_nil_of_mem hsk
              rw [if_pos hne]
            · rfl

theorem DecodeString_foreign_byte (s : GoString) (c : UInt8) (hc : c ∈ s)
    (h0 : decodeMap c = 0xff) (hnl : ¬ (c = 10 ∨ c = 13)) (hpad : c ≠ StdPadding) :
    DecodeString s = none :=
  decodeFrom_foreign_byte c h0 hnl hpad s [] hc

theorem StringSupportBase64_of_decoded (s : GoString) (b : List UInt8)
    (h : DecodeString s = some b) : StringSupportBase64 s = b := by
  unfold StringSupportBase64
  by_cases hs : s = []
  · subst hs
    have hb : b = [] := by
      have h1 : DecodeString [] = some [] := rfl
      rw [h1] at h
      exact (Option.some.inj h).symm
    rw [if_pos rfl, hb]
  · rw [if_neg hs, h]

/-- C4: `StringSupportBase64` applied to the standard padded base64 encoding of a byte string
`b` returns `b`; more generally, applied to any text the standard decoder accepts as an encoding
of `b`, it returns `b`. -/
theorem StringSupportBase64_round_trip (s : GoString) (b : List UInt8)
    (h : s = EncodeToString b ∨ DecodeString s = some b) :
    StringSupportBase64 s = b := by
  rcases h with h | h
  · exact StringSupportBase64_of_decoded s b (h ▸ DecodeString_EncodeToString b)
  · exact StringSupportBase64_of_decoded s b h

/-- C4 at the encoding of `hello world`, and at a text with a line break in it that the decoder
accepts as an encoding of `a`. -/
theorem StringSupportBase64_round_trip_witness :
    StringSupportBase64 (goStr "aGVsbG8gd29ybGQ=") = goStr "hello world" ∧
    StringSupportBase64 (goStr "YQ\n==") = goStr "a" :=
  ⟨StringSupportBase64_round_trip (goStr "aGVsbG8gd29ybGQ=") (goStr "hello world")
      (Or.inl (by decide)),
   StringSupportBase64_round_trip (goStr "YQ\n==") (goStr "a") (Or.inr (by decide))⟩

/-- C5: on a text the standard decoder rejects, `StringSupportBase64` returns the text itself;
the result is a text in every case, no error is signalled. -/
theorem StringSupportBase64_rejected_unchanged (s : GoString) (h : DecodeString s = none) :
    StringSupportBase64 s = s := by
  unfold StringSupportBase64
  by_cases hs : s = []
  · rw [if_pos hs]
  · rw [if_neg hs, h]

/-- C5 at a text with a byte outside the alphabet, at one with a missing padding character and
at one of a wrong length. -/
theorem StringSupportBase64_rejected_unchanged_witness :
    StringSupportBase64 (goStr "hello world") = goStr "hello world" ∧
    StringSupportBase64 (goStr "YQ=") = goStr "YQ=" ∧
    StringSupportBase64 (goStr "YWJjZ") = goStr "YWJjZ" :=
  ⟨StringSupportBase64_rejected_unchanged (goStr "hello world") (by decide),
   StringSupportBase64_rejected_unchanged (goStr "YQ=") (by decide),
   StringSupportBase64_rejected_unchanged (goStr "YWJjZ") (by decide)⟩

/-! ## Network type and network name -/

/-- C11 as stated fails: with the network type `bogus` and an empty image name,
`SetConfigFromFlags` returns the image-name error, not the unknown-network-type one. -/
theorem SetConfigFromFlags_bogus_counterexample :
    (lookupOptions [(goStr "harvester-network-type", goStr "bogus")] []).String
      (goStr "harvester-network-type") = goStr "bogus" ∧
    (SetConfigFromFlags zeroDriver
      (lookupOptions [(goStr "harvester-network-type", goStr "bogus")] [])).2 =
      some (goStr "must specify harvester image name") ∧
    (SetConfigFromFlags zeroDriver
      (lookupOptions [(goStr "harvester-network-type", goStr "bogus")] [])).2 ≠
      some (goStr "unknown network type bogus") := by
  decide

/-- C11, amended: whenever the lookup answers `harvester-network-type` with `bogus`,
`harvester-image-name` with a non-empty string, and `harvester-key-pair-name` with the empty
string or `harvester-ssh-private-key-path` with a non-empty one, `SetConfigFromFlags` returns
the error "unknown network type bogus". -/
theorem SetConfigFromFlags_unknown_network_type (d : Driver) (flags : DriverOptions)
    (himg : flags.String (goStr "harvester-image-name") ≠ [])
    (hkey : flags.String (goStr "harvester-key-pair-name") ≠ [] →
      flags.String (goStr "harvester-ssh-private-key-path") ≠ [])
    (htype : flags.String (goStr "harvester-network-type") = goStr "bogus") :
    (SetConfigFromFlags d flags).2 = some (goStr "unknown network type bogus") := by
  have h3 : ¬ ((populate d flags).NetworkType = goStr "pod" ∨
      (populate d flags).NetworkType = goStr "dhcp") := by
    show ¬ (flags.String (goStr "harvester-network-type") = goStr "pod" ∨
      flags.String (goStr "harvester-network-type") = goStr "dhcp")
    rw [htype]
    decide
  have h := checkConfig_unknownType (populate d flags) himg hkey h3
  have ht : (populate d flags).NetworkType = goStr "bogus" := htype
  rw [ht] at h
  exact h

/-- C11, amended, at the lookup with image `ubuntu` and network type `bogus`. -/
theorem SetConfigFromFlags_unknown_network_type_witness :
    (SetConfigFromFlags zeroDriver
      (lookupOptions [(goStr "harvester-image-name", goStr "ubuntu"),
        (goStr "harvester-network-type", goStr "bogus")] [])).2 =
      some (goStr "unknown network type bogus") :=
  SetConfigFromFlags_unknown_network_type zeroDriver
    (lookupOptions [(goStr "harvester-image-name", goStr "ubuntu"),
      (goStr "harvester-network-type", goStr "bogus")] [])
    (by decide) (by decide) (by decide)

/-- C12 as stated fails: with the network type `dhcp`, an empty network name and an empty image
name, `SetConfigFromFlags` returns the image-name error, not the network-name one. -/
theorem SetConfigFromFlags_dhcp_counterexample :
    (lookupOptions [(goStr "harvester-network-type", goStr "dhcp")] []).String
      (goStr "harvester-network-type") = goStr "dhcp" ∧
    (lookupOptions [(goStr "harvester-network-type", goStr "dhcp")] []).String
      (goStr "harvester-network-name") = [] ∧
    (SetConfigFromFlags zeroDriver
      (lookupOptions [(goStr "harvester-network-type", goStr "dhcp")] [])).2 =
      some (goStr "must specify harvester image name") ∧
    (SetConfigFromFlags zeroDriver
      (lookupOptions [(goStr "harvester-network-type", goStr "dhcp")] [])).2 ≠
      some (goStr "must specify harvester network name") := by
  decide

/-- C12, amended: whenever the lookup answers `harvester-network-type` with `dhcp`,
`harvester-network-name` with the empty string, `harvester-image-name` with a non-empty string,
and `harvester-key-pair-name` with the empty string or `harvester-ssh-private-key-path` with a
non-empty one, `SetConfigFromFlags` returns the error "must specify harvester network name". -/
theorem SetConfigFromFlags_missing_network_name (d : Driver) (flags : DriverOptions)
    (himg : flags.String (goStr "harvester-image-name") ≠ [])
    (hkey : flags.String (goStr "harvester-key-pair-name") ≠ [] →
      flags.String (goStr "harvester-ssh-private-key-path") ≠ [])
    (htype : flags.String (goStr "harvester-network-type") = goStr "dhcp")
    (hname : flags.String (goStr "harvester-network-name") = []) :
    (SetConfigFromFlags d flags).2 = some (goStr "must specify harvester network name") :=
  checkConfig_networkName (populate d flags) himg hkey ⟨htype, hname⟩

/-- C12, amended, at the lookup with image `ubuntu` and network type `dhcp`. -/
theorem SetConfigFromFlags_missing_network_name_witness :
    (SetConfigFromFlags zeroDriver
      (lookupOptions [(goStr "harvester-image-name", goStr "ubuntu"),
        (goStr "harvester-network-type", goStr "dhcp")] [])).2 =
      some (goStr "must specify harvester network name") :=
  SetConfigFromFlags_missing_network_name zeroDriver
    (lookupOptions [(goStr "harvester-image-name", goStr "ubuntu"),
      (goStr "harvester-network-type", goStr "dhcp")] [])
    (by decide) (by decide) (by decide) (by decide)

theorem checkConfig_pod (d : Driver) (h1 : d.ImageName ≠ [])
    (h2 : d.KeyPairName ≠ [] → d.SSHPrivateKeyPath ≠ [])
    (h3 : d.NetworkType = goStr "pod") : checkConfig d = none :=
  (checkConfig_none_iff d).mpr
    ⟨h1, h2, Or.inl h3, fun h => absurd (h3.symm.trans h) networkTypePod_ne_DHCP⟩

/-- C13: `pod` imposes no network-name requirement. A record that, with the network type `dhcp`
and an empty network name, gets the missing-network-name error passes `checkConfig` once its
network type is `pod`, whatever its network name is; and on a record whose network type is
`pod` the result of `checkConfig` does not depend on the network name. -/
theorem checkConfig_pod_ignores_network_name (d : Driver) :
    (d.NetworkType = goStr "dhcp" → d.NetworkName = [] →
      checkConfig d = some (goStr "must specify harvester network name") →
      ∀ n : GoString,
        checkConfig { d with NetworkType := goStr "pod", NetworkName := n } = none) ∧
    (d.NetworkType = goStr "pod" →
      ∀ n : GoString, checkConfig { d with NetworkName := n } = checkConfig d) := by
  constructor
  · intro _ _ herr n
    have h1 : d.ImageName ≠ [] := by
      intro h
      rw [checkConfig_imageName d h] at herr
      exact absurd herr (by decide)
    have h2 : d.KeyPairName ≠ [] → d.SSHPrivateKeyPath ≠ [] := by
      intro hk hp
      rw [checkConfig_keyPath d h1 ⟨hk, hp⟩] at herr
      exact absurd herr (by decide)
    exact checkConfig_pod _ h1 h2 rfl
  · intro hpod n
    unfold checkConfig networkTypePod
    simp only [hpod]
    rfl

/-- C13 at the record with image `ubuntu`, network type `dhcp` and no network name, and at the
same record with the network type `pod`. -/
theorem checkConfig_pod_ignores_network_name_witness :
    checkConfig (sampleDriver (goStr "ubuntu") [] [] (goStr "pod") (goStr "mgmt")) = none ∧
    checkConfig (sampleDriver (goStr "ubuntu") [] [] (goStr "pod") (goStr "mgmt")) =
      checkConfig (sampleDriver (goStr "ubuntu") [] [] (goStr "pod") []) :=
  ⟨(checkConfig_pod_ignores_network_name
      (sampleDriver (goStr "ubuntu") [] [] (goStr "dhcp") [])).1 rfl rfl (by decide)
      (goStr "mgmt"),
   (checkConfig_pod_ignores_network_name
      (sampleDriver (goStr "ubuntu") [] [] (goStr "pod") [])).2 rfl (goStr "mgmt")⟩

/-! ## The scenarios of the spec -/

/-- C14: on the lookup with CPU count 8, memory size 16, image name `ubuntu` and every other
option at its declared default, `SetConfigFromFlags` leaves a record with `CPU = 8`,
`MemorySize = "16Gi"`, `NetworkType = "dhcp"` and an empty `NetworkName`, and returns the error
"must specify harvester network name". -/
theorem SetConfigFromFlags_scenario_defaults (d : Driver) (DefaultSSHUser : GoString)
    (DefaultSSHPort : ℤ) :
    (SetConfigFromFlags d (scenarioOptions DefaultSSHUser DefaultSSHPort)).1.CPU = 8 ∧
    (SetConfigFromFlags d (scenarioOptions DefaultSSHUser DefaultSSHPort)).1.MemorySize =
      goStr "16Gi" ∧
    (SetConfigFromFlags d (scenarioOptions DefaultSSHUser DefaultSSHPort)).1.NetworkType =
      goStr "dhcp" ∧
    (SetConfigFromFlags d (scenarioOptions DefaultSSHUser DefaultSSHPort)).1.NetworkName = [] ∧
    (SetConfigFromFlags d (scenarioOptions DefaultSSHUser DefaultSSHPort)).2 =
      some (goStr "must specify harvester network name") := by
  refine ⟨rfl, rfl, rfl, rfl, ?_⟩
  show checkConfig (populate d (scenarioOptions DefaultSSHUser DefaultSSHPort)) = _
  apply checkConfig_networkName
  · show goStr "ubuntu" ≠ []
    decide
  · intro h
    exact absurd rfl h
  · exact ⟨rfl, rfl⟩

/-- C15: on the lookup of the first scenario with the network name `mgmt` set as well,
`SetConfigFromFlags` returns no error. -/
theorem SetConfigFromFlags_scenario_with_network (d : Driver) (DefaultSSHUser : GoString)
    (DefaultSSHPort : ℤ) :
    (SetConfigFromFlags d (scenarioOptionsWithNetwork DefaultSSHUser DefaultSSHPort)).2 =
      none ∧
    (SetConfigFromFlags d
      (scenarioOptionsWithNetwork DefaultSSHUser DefaultSSHPort)).1.NetworkName =
      goStr "mgmt" := by
  refine ⟨?_, rfl⟩
  show checkConfig (populate d (scenarioOptionsWithNetwork DefaultSSHUser DefaultSSHPort)) = _
  apply (checkConfig_none_iff _).mpr
  refine ⟨?_, ?_, Or.inr rfl, ?_⟩
  · show goStr "ubuntu" ≠ []
    decide
  · intro h
    exact absurd rfl h
  · intro _
    show goStr "mgmt" ≠ []
    decide

/-! ## Frame of the validator -/

/-- C16: `checkConfig` does not mutate the record: the record after the call is the record
before it, on success and on every error alike; the error is that of `checkConfig`. -/
theorem checkConfig_leaves_record (d : Driver) :
    (checkConfigState d).1 = d ∧
    (checkConfigState d).2 = checkConfig d ∧
    ((checkConfigState d).2 = none → (checkConfigState d).1 = d) ∧
    ((checkConfigState d).2 ≠ none → (checkConfigState d).1 = d) := by
  have h1 : (checkConfigState d).1 = d := by
    unfold checkConfigState
    split_ifs <;> rfl
  have h2 : (checkConfigState d).2 = checkConfig d := by
    unfold checkConfigState checkConfig
    split_ifs <;> rfl
  exact ⟨h1, h2, fun _ => h1, fun _ => h1⟩

/-- C16 at a record that passes and at a record that fails. -/
theorem checkConfig_leaves_record_witness :
    (checkConfigState (sampleDriver (goStr "ubuntu") [] [] (goStr "pod") [])).1 =
      sampleDriver (goStr "ubuntu") [] [] (goStr "pod") [] ∧
    (checkConfigState usedDriver).1 = usedDriver :=
  ⟨(checkConfig_leaves_record (sampleDriver (goStr "ubuntu") [] [] (goStr "pod") [])).2.2.1
      (by decide),
   (checkConfig_leaves_record usedDriver).2.2.2 (by decide)⟩

/-- C17: `StringSupportBase64` applied to the empty text returns the empty text. -/
theorem StringSupportBase64_empty : StringSupportBase64 [] = [] ∧
    StringSupportBase64 (goStr "") = goStr "" :=
  ⟨rfl, rfl⟩

/-! ## Idempotence of the base64-optional decoder -/

theorem quantumBytes_length (d0 d1 d2 d3 : UInt8) : (quantumBytes d0 d1 d2 d3).length = 3 :=
  rfl

/-- Four characters give at most three bytes: the decoded text is shorter than the input. -/
theorem decodeFrom_length :
    ∀ (s dbuf b : List UInt8), decodeFrom dbuf s = some b →
      4 * b.length ≤ 3 * (s.length + dbuf.length) := by
  intro s
  induction s with
  | nil =>
    intro dbuf b h
    unfold decodeFrom at h
    by_cases h0 : dbuf.length = 0
    · rw [if_pos h0] at h
      rw [← Option.some.inj h]
      simp
    · rw [if_neg h0] at h
      exact absurd h (by simp)
  | cons x xs ih =>
    intro dbuf b h
    unfold decodeFrom at h
    by_cases hv : decodeMap x ≠ 0xff
    · rw [if_pos hv] at h
      split at h
      · cases hr : decodeFrom [] xs with
        | none =>
          rw [hr] at h
          exact absurd h (by simp)
        | some tl =>
          rw [hr] at h
          have hb := Option.some.inj h
          have h1 := ih [] tl hr
          rw [← hb]
          simp only [List.length_append, quantumBytes_length, List.length_cons,
            List.length_nil] at h1 ⊢
          omega
      · have h1 := ih _ b h
        simp only [List.length_append, List.length_cons, List.length_nil] at h1 ⊢
        omega
    · rw [if_neg hv] at h
      by_cases hx : x = 10 ∨ x = 13
      · rw [if_pos hx] at h
        have h1 := ih _ b h
        simp only [List.length_cons] at h1 ⊢
        omega
      · rw [if_neg hx] at h
        by_cases hp : x ≠ StdPadding
        · rw [if_pos hp] at h
          exact absurd h (by simp)
        · rw [if_neg hp] at h
          split at h
          · split at h
            · exact absurd h (by simp)
            · split_ifs at h
              rw [← Option.some.inj h]
              simp only [List.length_take, quantumBytes_length, List.length_cons,
                List.length_nil]
              omega
          · split_ifs at h
            rw [← Option.some.inj h]
            simp only [List.length_take, quantumBytes_length, List.length_cons,
              List.length_nil]
            omega
          · exact absurd h (by simp)

/-- A non-empty text is never its own decoding. -/
theorem DecodeString_ne_self (t : GoString) (ht : t ≠ []) : DecodeString t ≠ some t := by
  intro h
  have h1 := decodeFrom_length t [] t h
  simp only [List.length_nil, Nat.add_zero] at h1
  have h2 : t.length ≠ 0 := fun h0 => ht (List.length_eq_zero.mp h0)
  omega

theorem StringSupportBase64_fixed_iff (t : GoString) :
    StringSupportBase64 t = t ↔ (t = [] ∨ DecodeString t = none) := by
  constructor
  · intro h
    by_cases ht : t = []
    · exact Or.inl ht
    · right
      cases hd : DecodeString t with
      | none => rfl
      | some b =>
        have hb := StringSupportBase64_of_decoded t b hd
        rw [h] at hb
        rw [← hb] at hd
        exact absurd hd (DecodeString_ne_self t ht)
  · intro h
    unfold StringSupportBase64
    by_cases ht : t = []
    · rw [if_pos ht]
    · rw [if_neg ht]
      rcases h with h | h
      · exact absurd h ht
      · rw [h]

/-- C20: `StringSupportBase64` is not idempotent: on `WVE9PQ==` it gives `YQ==`, and on that
it gives `a`; applying it twice equals applying it once exactly on the inputs whose result is
empty or is rejected by the standard decoder. -/
theorem StringSupportBase64_idempotent_iff :
    StringSupportBase64 (goStr "WVE9PQ==") = goStr "YQ==" ∧
    StringSupportBase64 (StringSupportBase64 (goStr "WVE9PQ==")) = goStr "a" ∧
    StringSupportBase64 (StringSupportBase64 (goStr "WVE9PQ==")) ≠
      StringSupportBase64 (goStr "WVE9PQ==") ∧
    ∀ s : GoString,
      StringSupportBase64 (StringSupportBase64 s) = StringSupportBase64 s ↔
        (StringSupportBase64 s = [] ∨ DecodeString (StringSupportBase64 s) = none) :=
  ⟨by decide, by decide, by decide, fun s => StringSupportBase64_fixed_iff (StringSupportBase64 s)⟩

/-! ## The catalog and the populator -/

theorem populateLogged_record (d : Driver) (flags : DriverOptions)
    (log : List (OptionKind × GoString)) :
    (populateLogged d ⟨flags, log⟩).1 = populate d flags :=
  rfl

theorem assignFieldsLogged_log (d : Driver) (flags : DriverOptions) :
    (assignFieldsLogged d ⟨flags, []⟩).2.log =
      (assignFieldsLogged zeroDriver ⟨emptyOptions, []⟩).2.log :=
  rfl

theorem populateLogged_log (d : Driver) (flags : DriverOptions) :
    (populateLogged d ⟨flags, []⟩).2.log = (populateLogged zeroDriver ⟨emptyOptions, []⟩).2.log :=
  rfl

set_option maxRecDepth 100000 in
theorem log_split_closed :
    (populateLogged zeroDriver ⟨emptyOptions, []⟩).2.log =
      (assignFieldsLogged zeroDriver ⟨emptyOptions, []⟩).2.log ++ swarmReads := by
  decide

/-- The log of the whole call is the log of lines 144-172 followed by the reads of line 174. -/
theorem populateLogged_log_split (d : Driver) (flags : DriverOptions) :
    (populateLogged d ⟨flags, []⟩).2.log =
      (assignFieldsLogged d ⟨flags, []⟩).2.log ++ swarmReads := by
  rw [populateLogged_log, assignFieldsLogged_log]
  exact log_split_closed

theorem GetCreateFlags_reads (DefaultSSHUser : GoString) (DefaultSSHPort : ℤ) :
    (GetCreateFlags DefaultSSHUser DefaultSSHPort).map Flag.read =
      (GetCreateFlags [] 0).map Flag.read :=
  rfl

theorem GetCreateFlags_names (DefaultSSHUser : GoString) (DefaultSSHPort : ℤ) :
    (GetCreateFlags DefaultSSHUser DefaultSSHPort).map Flag.name =
      (GetCreateFlags [] 0).map Flag.name :=
  rfl

theorem GetCreateFlags_envVars (DefaultSSHUser : GoString) (DefaultSSHPort : ℤ) :
    (GetCreateFlags DefaultSSHUser DefaultSSHPort).map Flag.envVar =
      (GetCreateFlags [] 0).map Flag.envVar :=
  rfl

set_option maxRecDepth 100000 in
theorem reads_declared_closed :
    ∀ r ∈ (assignFieldsLogged zeroDriver ⟨emptyOptions, []⟩).2.log,
      r ∈ (GetCreateFlags [] 0).map Flag.read := by
  decide

set_option maxRecDepth 100000 in
theorem declared_read_once_closed :
    ∀ r ∈ (GetCreateFlags [] 0).map Flag.read,
      (populateLogged zeroDriver ⟨emptyOptions, []⟩).2.log.count r = 1 ∧
      ((populateLogged zeroDriver ⟨emptyOptions, []⟩).2.log.map Prod.snd).count r.2 = 1 := by
  decide

set_option maxRecDepth 100000 in
theorem harvester_reads_closed :
    (populateLogged zeroDriver ⟨emptyOptions, []⟩).2.log.filter
        (fun r => r.2.take 10 == goStr "harvester-") =
      (assignFieldsLogged zeroDriver ⟨emptyOptions, []⟩).2.log := by
  decide

set_option maxRecDepth 100000 in
theorem swarm_reads_undeclared_closed :
    ∀ r ∈ swarmReads, r.2 ∉ (GetCreateFlags [] 0).map Flag.name := by
  decide

set_option maxRecDepth 100000 in
theorem names_nodup_closed : ((GetCreateFlags [] 0).map Flag.name).Nodup := by
  decide

set_option maxRecDepth 100000 in
theorem envVars_nodup_closed : ((GetCreateFlags [] 0).map Flag.envVar).Nodup := by
  decide

set_option maxRecDepth 100000 in
/-- C18 as stated fails: `SetConfigFromFlags` reads `swarm-host` with `flags.String` (inside
`SetSwarmConfigFromFlags`, line 174), and `GetCreateFlags` declares no option of that name. -/
theorem swarm_host_read_not_declared :
    (OptionKind.stringOption, goStr "swarm-host") ∈
      (populateLogged zeroDriver ⟨emptyOptions, []⟩).2.log ∧
    ¬ (∃ f ∈ GetCreateFlags (goStr "root") 22,
      f.kind = OptionKind.stringOption ∧ f.name = goStr "swarm-host") := by
  decide

/-- C18, amended: the option catalog and lines 144-172 of the populator agree. The reads of
the whole call are the 21 reads of lines 144-172, which are its reads of `harvester-` options,
followed by the three reads of line 174. Every name read in lines 144-172 with `flags.String`
is declared by `GetCreateFlags` as a string option and every name read there with `flags.Int`
as an integer option; every declared option is read exactly once in the whole call, through
the getter of its kind; the declared option names are pairwise distinct, and so are the
environment aliases; the three options read on line 174 are not declared by `GetCreateFlags`. -/
theorem catalog_and_populator_agree (DefaultSSHUser : GoString) (DefaultSSHPort : ℤ)
    (d : Driver) (flags : DriverOptions) :
    (populateLogged d ⟨flags, []⟩).1 = populate d flags ∧
    (populateLogged d ⟨flags, []⟩).2.log =
      (assignFieldsLogged d ⟨flags, []⟩).2.log ++ swarmReads ∧
    (populateLogged d ⟨flags, []⟩).2.log.filter (fun r => r.2.take 10 == goStr "harvester-") =
      (assignFieldsLogged d ⟨flags, []⟩).2.log ∧
    (∀ name, (OptionKind.stringOption, name) ∈ (assignFieldsLogged d ⟨flags, []⟩).2.log →
      ∃ f ∈ GetCreateFlags DefaultSSHUser DefaultSSHPort,
        f.kind = OptionKind.stringOption ∧ f.name = name) ∧
    (∀ name, (OptionKind.intOption, name) ∈ (assignFieldsLogged d ⟨flags, []⟩).2.log →
      ∃ f ∈ GetCreateFlags DefaultSSHUser DefaultSSHPort,
        f.kind = OptionKind.intOption ∧ f.name = name) ∧
    (∀ f ∈ GetCreateFlags DefaultSSHUser DefaultSSHPort,
      (populateLogged d ⟨flags, []⟩).2.log.count (f.kind, f.name) = 1 ∧
      ((populateLogged d ⟨flags, []⟩).2.log.map Prod.snd).count f.name = 1) ∧
    ((GetCreateFlags DefaultSSHUser DefaultSSHPort).map Flag.name).Nodup ∧
    ((GetCreateFlags DefaultSSHUser DefaultSSHPort).map Flag.envVar).Nodup ∧
    (∀ r ∈ swarmReads, ¬ ∃ f ∈ GetCreateFlags DefaultSSHUser DefaultSSHPort, f.name = r.2) := by
  have hdecl : ∀ r ∈ (assignFieldsLogged d ⟨flags, []⟩).2.log,
      ∃ f ∈ GetCreateFlags DefaultSSHUser DefaultSSHPort, f.kind = r.1 ∧ f.name = r.2 := by
    intro r hr
    rw [assignFieldsLogged_log] at hr
    have h1 := reads_declared_closed r hr
    rw [← GetCreateFlags_reads DefaultSSHUser DefaultSSHPort] at h1
    obtain ⟨f, hf, hfr⟩ := List.mem_map.mp h1
    refine ⟨f, hf, ?_, ?_⟩
    · exact congrArg Prod.fst hfr
    · exact congrArg Prod.snd hfr
  refine ⟨rfl, populateLogged_log_split d flags, ?_, fun name h => hdecl _ h,
    fun name h => hdecl _ h, ?_, ?_, ?_, ?_⟩
  · rw [populateLogged_log, assignFieldsLogged_log]
    exact harvester_reads_closed
  · intro f hf
    rw [populateLogged_log]
    have h1 : f.read ∈ (GetCreateFlags [] 0).map Flag.read := by
      rw [← GetCreateFlags_reads DefaultSSHUser DefaultSSHPort]
      exact List.mem_map_of_mem Flag.read hf
    exact declared_read_once_closed f.read h1
  · rw [GetCreateFlags_names]
    exact names_nodup_closed
  · rw [GetCreateFlags_envVars]
    exact envVars_nodup_closed
  · intro r hr hex
    obtain ⟨f, hf, hfn⟩ := hex
    apply swarm_reads_undeclared_closed r hr
    rw [← GetCreateFlags_names DefaultSSHUser DefaultSSHPort, ← hfn]
    exact List.mem_map_of_mem Flag.name hf

/-- C18, amended, at the memory-size option, read with `flags.Int` and declared as an integer
flag, at the image-name option, read with `flags.String` and declared as a string flag, and at
the `swarm-host` read, which no declared flag answers. -/
theorem catalog_and_populator_agree_witness :
    (∃ f ∈ GetCreateFlags [] 0,
      f.kind = OptionKind.intOption ∧ f.name = goStr "harvester-memory-size") ∧
    (∃ f ∈ GetCreateFlags [] 0,
      f.kind = OptionKind.stringOption ∧ f.name = goStr "harvester-image-name") ∧
    ¬ (∃ f ∈ GetCreateFlags [] 0, f.name = goStr "swarm-host") :=
  ⟨(catalog_and_populator_agree [] 0 zeroDriver emptyOptions).2.2.2.2.1
      (goStr "harvester-memory-size") (by decide),
   (catalog_and_populator_agree [] 0 zeroDriver emptyOptions).2.2.2.1
      (goStr "harvester-image-name") (by decide),
   (catalog_and_populator_agree [] 0 zeroDriver emptyOptions).2.2.2.2.2.2.2.2
      (OptionKind.stringOption, goStr "swarm-host") (by decide)⟩

/-! ## No roll-back on error -/

/-- C19: `SetConfigFromFlags` is not atomic on error: whenever it returns an error, the record
it leaves is the populated one, each of the 21 fields holding the value derived from the
lookup, whatever the receiver held before the call. -/
theorem SetConfigFromFlags_not_atomic (d : Driver) (flags : DriverOptions)
    (_herr : (SetConfigFromFlags d flags).2 ≠ none) :
    (SetConfigFromFlags d flags).1 = populate d flags ∧
    (SetConfigFromFlags d flags).1.KubeConfigContent =
      StringSupportBase64 (flags.String (goStr "harvester-kubeconfig-content")) ∧
    (SetConfigFromFlags d flags).1.VMNamespace = flags.String (goStr "harvester-vm-namespace") ∧
    (SetConfigFromFlags d flags).1.VMAffinity =
      StringSupportBase64 (flags.String (goStr "harvester-vm-affinity")) ∧
    (SetConfigFromFlags d flags).1.ClusterType = flags.String (goStr "harvester-cluster-type") ∧
    (SetConfigFromFlags d flags).1.ClusterID = flags.String (goStr "harvester-cluster-id") ∧
    (SetConfigFromFlags d flags).1.CPU = flags.Int (goStr "harvester-cpu-count") ∧
    (SetConfigFromFlags d flags).1.MemorySize =
      formatInt (flags.Int (goStr "harvester-memory-size")) ++ goStr "Gi" ∧
    (SetConfigFromFlags d flags).1.DiskSize =
      formatInt (flags.Int (goStr "harvester-disk-size")) ++ goStr "Gi" ∧
    (SetConfigFromFlags d flags).1.DiskBus = flags.String (goStr "harvester-disk-bus") ∧
    (SetConfigFromFlags d flags).1.ImageName = flags.String (goStr "harvester-image-name") ∧
    (SetConfigFromFlags d flags).1.SSHUser = flags.String (goStr "harvester-ssh-user") ∧
    (SetConfigFromFlags d flags).1.SSHPort = flags.Int (goStr "harvester-ssh-port") ∧
    (SetConfigFromFlags d flags).1.KeyPairName =
      flags.String (goStr "harvester-key-pair-name") ∧
    (SetConfigFromFlags d flags).1.SSHPrivateKeyPath =
      flags.String (goStr "harvester-ssh-private-key-path") ∧
    (SetConfigFromFlags d flags).1.SSHPassword =
      flags.String (goStr "harvester-ssh-password") ∧
    (SetConfigFromFlags d flags).1.NetworkType = flags.String (goStr "harvester-network-type") ∧
    (SetConfigFromFlags d flags).1.NetworkName = flags.String (goStr "harvester-network-name") ∧
    (SetConfigFromFlags d flags).1.NetworkModel =
      flags.String (goStr "harvester-network-model") ∧
    (SetConfigFromFlags d flags).1.CloudConfig =
      flags.String (goStr "harvester-cloud-config") ∧
    (SetConfigFromFlags d flags).1.UserData =
      StringSupportBase64 (flags.String (goStr "harvester-user-data")) ∧
    (SetConfigFromFlags d flags).1.NetworkData =
      StringSupportBase64 (flags.String (goStr "harvester-network-data")) :=
  ⟨rfl, rfl, rfl, rfl, rfl, rfl, rfl, rfl, rfl, rfl, rfl, rfl, rfl, rfl, rfl, rfl, rfl, rfl, rfl,
    rfl, rfl, rfl⟩

/-- C19 at a receiver filled before the call and the lookup that answers every option with the
zero value: the call fails on the image name, and the CPU count 7 has become 0, the memory size
`old` has become `0Gi`, the network type `old` has become empty. -/
theorem SetConfigFromFlags_not_atomic_witness :
    (SetConfigFromFlags usedDriver emptyOptions).2 =
      some (goStr "must specify harvester image name") ∧
    usedDriver.CPU = 7 ∧
    (SetConfigFromFlags usedDriver emptyOptions).1.CPU = 0 ∧
    (SetConfigFromFlags usedDriver emptyOptions).1.MemorySize = goStr "0Gi" ∧
    (SetConfigFromFlags usedDriver emptyOptions).1.NetworkType = [] :=
  ⟨by decide, rfl,
   (SetConfigFromFlags_not_atomic usedDriver emptyOptions (by decide)).2.2.2.2.2.2.1,
   (SetConfigFromFlags_not_atomic usedDriver emptyOptions (by decide)).2.2.2.2.2.2.2.1,
   (SetConfigFromFlags_not_atomic usedDriver emptyOptions
      (by decide)).2.2.2.2.2.2.2.2.2.2.2.2.2.2.2.2.1⟩

end Harvester
